import Mathlib

/-!
Shallow embedding of `src/app.py` (Employee Engagement Scrabble, a
Streamlit + SQLite live quiz). The SQLite database is modelled as a
`DB` record: the `players` table as a list of `Player` rows (with the
AUTOINCREMENT counter carried explicitly), the `scores` table as a list
of `ScoreRecord` rows (the surrogate `id` column is never read by any
query and is omitted), and the singleton `game_state` row as a
`GameState` record. Wall-clock timestamps are rationals (seconds);
Python's `float` arithmetic on small second counts is modelled exactly.
Each Python DB-helper function becomes a Lean function from `DB` (plus
the sampled `now`) to `DB`; the Streamlit per-session state becomes a
`Session` record and the relevant parts of the player render loop
become explicit state-passing functions.
-/

/-- A row of the `players` table (`id`, `name`, `created_at`, `last_seen`). -/
structure Player where
  id : Nat
  name : String
  createdAt : ℚ
  lastSeen : Option ℚ
deriving DecidableEq

/-- A row of the `scores` table: `player_id`, `word_index`, `correct`,
`time_taken` (NULL unless stored), `answered_at`. The surrogate `id`
column is omitted (no query reads it). -/
structure ScoreRecord where
  playerId : Nat
  wordIndex : Nat
  correct : Bool
  timeTaken : Option ℚ
  answeredAt : ℚ
deriving DecidableEq

/-- The singleton `game_state` row (`id = 1`). -/
structure GameState where
  currentWordIndex : Nat
  questionStartTime : Option ℚ
  isActive : Bool
deriving DecidableEq

/-- The whole SQLite database, plus the `players` AUTOINCREMENT counter. -/
structure DB where
  players : List Player
  nextPlayerId : Nat
  scores : List ScoreRecord
  gameState : GameState
deriving DecidableEq

/-- A word entry of the static `WORDS` list. -/
structure WordEntry where
  index : Nat
  scramble : String
  answer : String
  clue : String
deriving DecidableEq

/-- The static 13-entry word list from `app.py`. -/
def WORDS : List WordEntry :=
  [ ⟨0, "GNEGAEMNET", "ENGAGEMENT", "Emotional commitment employees feel towards their organisation."⟩,
    ⟨1, "WELNLEBIEG", "WELLBEING", "Employee health, happiness and overall state at work."⟩,
    ⟨2, "IVYITFLEXLBI", "FLEXIBILITY", "Ability to choose when or where to work."⟩,
    ⟨3, "EALHEDRIPS", "LEADERSHIP", "Guiding and influencing others towards shared goals."⟩,
    ⟨4, "TSAURT", "TRUST", "Belief that managers and colleagues act fairly."⟩,
    ⟨5, "HYBRDIROWK", "HYBRIDWORK", "Mix of office and remote work locations."⟩,
    ⟨6, "LEARNGNIE", "LEARNING", "Building new skills and knowledge."⟩,
    ⟨7, "ECTFEEBDKAB", "FEEDBACK", "Information given to help improve performance."⟩,
    ⟨8, "LUUTRECC", "CULTURE", "Shared values, norms and habits inside the organisation."⟩,
    ⟨9, "MOTIOTVANI", "MOTIVATION", "Inner drive that makes people want to do their job well."⟩,
    ⟨10, "AUTYMONO", "AUTONOMY", "Freedom to decide how to do your work."⟩,
    ⟨11, "INCUSOINL", "INCLUSION", "Everyone feels welcome and respected."⟩,
    ⟨12, "REIONCOINGT", "RECOGNITION", "Appreciating and thanking employees for contributions."⟩ ]

/-- `TOTAL_WORDS = len(WORDS)`. -/
def TOTAL_WORDS : Nat := WORDS.length

/-- `TIME_LIMIT = 30` seconds per word. -/
def TIME_LIMIT : Nat := 30

/-- The fresh database produced by `init_db`: empty `players` and
`scores`, and the single `game_state` row `(1, 0, NULL, 0)` inserted by
the `INSERT OR IGNORE`. AUTOINCREMENT ids start at 1. -/
def init_db : DB :=
  { players := [], nextPlayerId := 1, scores := [],
    gameState := { currentWordIndex := 0, questionStartTime := none, isActive := false } }

/-- Python's `int()` applied to a float: truncation toward zero. -/
def pyInt (q : ℚ) : ℤ :=
  if q < 0 then -((-q).floor) else q.floor

/-- Python's `str.strip()` (the answers are ASCII, so the ASCII whitespace
characters suffice): drop leading and trailing whitespace. -/
def pyStrip (s : String) : String :=
  ⟨((s.data.dropWhile Char.isWhitespace).reverse.dropWhile Char.isWhitespace).reverse⟩

/-- Python's `str.upper()` on the ASCII strings this app handles. -/
def pyUpper (s : String) : String :=
  ⟨s.data.map Char.toUpper⟩

/-- Python's `min` on two floats. -/
def pyMin (a b : ℚ) : ℚ :=
  if a ≤ b then a else b

/-- `set_game_state(current_word_index, question_start_time, is_active)`:
builds an `UPDATE game_state SET ... WHERE id = 1` containing only the
fields whose argument is not `None`; an argument left at `None` is not
mentioned in the SQL and the stored field keeps its previous value. -/
def set_game_state (current_word_index : Option Nat) (question_start_time : Option ℚ)
    (is_active : Option Bool) (db : DB) : DB :=
  { db with gameState :=
      { currentWordIndex :=
          match current_word_index with
          | some i => i
          | none => db.gameState.currentWordIndex,
        questionStartTime :=
          match question_start_time with
          | some t => some t
          | none => db.gameState.questionStartTime,
        isActive :=
          match is_active with
          | some b => b
          | none => db.gameState.isActive } }

/-- `get_or_create_player(name)`: `SELECT id FROM players WHERE name = ?`
(exact, case-sensitive match); if a row is found its id is returned and
nothing is written, otherwise `INSERT INTO players (name, last_seen)
VALUES (?, utcnow())` runs and `lastrowid` is returned. -/
def get_or_create_player (name : String) (now : ℚ) (db : DB) : Nat × DB :=
  match db.players.find? (fun p => p.name = name) with
  | some p => (p.id, db)
  | none =>
      (db.nextPlayerId,
       { db with
           players := db.players ++ [{ id := db.nextPlayerId, name := name,
                                       createdAt := now, lastSeen := some now }],
           nextPlayerId := db.nextPlayerId + 1 })

/-- `update_last_seen(player_id)`: `UPDATE players SET last_seen = utcnow()
WHERE id = ?`. -/
def update_last_seen (player_id : Nat) (now : ℚ) (db : DB) : DB :=
  { db with players :=
      db.players.map (fun p => if p.id = player_id then { p with lastSeen := some now } else p) }

/-- `save_score(player_id, word_index, correct, time_taken)`:
`INSERT OR REPLACE INTO scores ...` under `UNIQUE(player_id, word_index)` —
any existing row with the same key is deleted and the new row inserted. -/
def save_score (player_id : Nat) (word_index : Nat) (correct : Bool)
    (time_taken : Option ℚ) (now : ℚ) (db : DB) : DB :=
  { db with scores :=
      (db.scores.filter
        (fun r => ¬(r.playerId = player_id ∧ r.wordIndex = word_index)) ++
       [{ playerId := player_id, wordIndex := word_index, correct := correct,
          timeTaken := time_taken, answeredAt := now }]) }

/-- `reset_all()`: `DELETE FROM scores; DELETE FROM players;` and reset the
`game_state` row to `(current_word_index = 0, question_start_time = NULL,
is_active = 0)`. (DELETE does not reset the AUTOINCREMENT counter.) -/
def reset_all (db : DB) : DB :=
  { db with
      players := [],
      scores := [],
      gameState := { currentWordIndex := 0, questionStartTime := none, isActive := false } }

/-- `player_exists(player_id)`. -/
def player_exists (player_id : Nat) (db : DB) : Bool :=
  db.players.any (fun p => p.id = player_id)

/-- One aggregated row of `get_overall_leaderboard` for player `p`:
`(p.name, SUM(CASE WHEN s.correct = 1 THEN 1 ELSE 0 END),
SUM(CASE WHEN s.correct = 1 THEN s.time_taken ELSE 0 END))` over the
LEFT-JOINed score rows of `p` (SQL `SUM` skips NULL `time_taken`; with no
rows at all `COALESCE` yields `0` and `0.0`). -/
def playerRow (scores : List ScoreRecord) (p : Player) : String × Nat × ℚ :=
  (p.name,
   (scores.filter (fun r => r.playerId = p.id ∧ r.correct = true)).length,
   ((scores.filter (fun r => r.playerId = p.id ∧ r.correct = true)).map
      (fun r => r.timeTaken.getD 0)).sum)

/-- The `ORDER BY correct_answers DESC, total_time ASC` comparison on
leaderboard rows `(name, correct_answers, total_time)`. -/
def lbRel (a b : String × Nat × ℚ) : Prop :=
  b.2.1 < a.2.1 ∨ (b.2.1 = a.2.1 ∧ a.2.2 ≤ b.2.2)

instance : DecidableRel lbRel := fun a b => by
  unfold lbRel
  infer_instance

instance : IsTotal (String × Nat × ℚ) lbRel :=
  ⟨fun a b => by
    unfold lbRel
    rcases lt_trichotomy a.2.1 b.2.1 with h | h | h
    · exact Or.inr (Or.inl h)
    · rcases le_total a.2.2 b.2.2 with ht | ht
      · exact Or.inl (Or.inr ⟨h.symm, ht⟩)
      · exact Or.inr (Or.inr ⟨h, ht⟩)
    · exact Or.inl (Or.inl h)⟩

instance : IsTrans (String × Nat × ℚ) lbRel :=
  ⟨fun a b c hab hbc => by
    unfold lbRel at *
    rcases hab with h1 | ⟨h1, t1⟩
    · rcases hbc with h2 | ⟨h2, _⟩
      · exact Or.inl (h2.trans h1)
      · exact Or.inl (h2 ▸ h1)
    · rcases hbc with h2 | ⟨h2, t2⟩
      · exact Or.inl (h1 ▸ h2)
      · exact Or.inr ⟨h2.trans h1, t1.trans t2⟩⟩

/-- `get_overall_leaderboard()`: one aggregated row per `players` row
(`LEFT JOIN scores` + `GROUP BY p.id`), ordered by
`correct_answers DESC, total_time ASC`. -/
def get_overall_leaderboard (db : DB) : List (String × Nat × ℚ) :=
  List.insertionSort lbRel (db.players.map (playerRow db.scores))

/-- `get_current_word_leaderboard(word_index)`: `(name, time_taken)` of the
correct rows for this word, `ORDER BY time_taken ASC`. NULL `time_taken`
is read back as `0` here only for totality; correct rows store a real. -/
def get_current_word_leaderboard (word_index : Nat) (db : DB) : List (String × ℚ) :=
  List.insertionSort (fun a b => a.2 ≤ b.2)
    ((db.scores.filter (fun r => r.wordIndex = word_index ∧ r.correct = true)).map
      (fun r => ((db.players.find? (fun p => p.id = r.playerId)).elim "" Player.name,
                 r.timeTaken.getD 0)))

/-- `get_answer_stats(word_index)`: `(total, correct, incorrect)` counts over
the score rows for this word. -/
def get_answer_stats (word_index : Nat) (db : DB) : Nat × Nat × Nat :=
  let rows := db.scores.filter (fun r => r.wordIndex = word_index)
  let total := rows.length
  let correct := (rows.filter (fun r => r.correct = true)).length
  (total, correct, total - correct)

/-- The Streamlit per-session state fields used by the player flow. -/
structure Session where
  seenWordIndex : Int
  hasAnswered : Bool
  lastAnswerCorrect : Option Bool
  lastAnswerTime : Option ℚ
deriving DecidableEq

/-- `init_session_state()` defaults for a fresh session. -/
def initSession : Session :=
  { seenWordIndex := -1, hasAnswered := false,
    lastAnswerCorrect := none, lastAnswerTime := none }

/-- The answer-judging block of the submit handler in `main()`:
`elapsed = now - start_time`, `time_taken = min(elapsed, TIME_LIMIT)`,
`user_answer = answer.strip().upper()`, `correct_answer = entry.upper()`,
`is_correct = user_answer == correct_answer and time_taken <= TIME_LIMIT`.
Returns `(is_correct, time_taken)`. -/
def judge (answer : String) (word_answer : String) (start_time now : ℚ) : Bool × ℚ :=
  let elapsed := now - start_time
  let time_taken := pyMin elapsed ((TIME_LIMIT : ℚ))
  let user_answer := pyUpper (pyStrip answer)
  let correct_answer := pyUpper word_answer
  ((user_answer = correct_answer ∧ time_taken ≤ (TIME_LIMIT : ℚ) : Bool), time_taken)

/-- The `Submit answer` button handler in `main()`: judges the typed
`answer`, updates the session flags, and calls
`save_score(player_id, word.index, is_correct, time_taken if is_correct else None)`. -/
def submitAnswer (player_id : Nat) (w : WordEntry) (answer : String)
    (start_time now : ℚ) (db : DB) (s : Session) : DB × Session :=
  let j := judge answer w.answer start_time now
  (save_score player_id w.index j.1 (if j.1 then some j.2 else none) now db,
   { s with hasAnswered := true,
            lastAnswerCorrect := some j.1,
            lastAnswerTime := if j.1 then some j.2 else none })

/-- The `Join Game` button handler in `main()`: strips the typed name; an
empty result shows a warning and stops without touching the DB, otherwise
`get_or_create_player` runs and the session stores the id. -/
def joinGame (name_input : String) (now : ℚ) (db : DB) : Option Nat × DB :=
  let name := pyStrip name_input
  if name = "" then (none, db)
  else
    let r := get_or_create_player name now db
    (some r.1, r.2)

/-- One player-flow poll of `main()` for a logged-in session, up to the
timeout auto-record: the `player_exists` logout check, `update_last_seen`,
the `seen_word_index` reconciliation, the game-over and waiting early
stops, and `save_score(player_id, idx, False, None)` once when
`time_left <= 0 and not has_answered`. -/
def pollStep (player_id : Nat) (now : ℚ) (db : DB) (s : Session) : DB × Session :=
  if player_exists player_id db = false then (db, initSession)
  else
    let db1 := update_last_seen player_id now db
    let gs := db1.gameState
    let s1 :=
      if s.seenWordIndex ≠ (gs.currentWordIndex : Int) then
        { s with seenWordIndex := (gs.currentWordIndex : Int), hasAnswered := false,
                 lastAnswerCorrect := none, lastAnswerTime := none }
      else s
    if TOTAL_WORDS ≤ gs.currentWordIndex then (db1, s1)
    else
      match gs.questionStartTime, gs.isActive with
      | some t0, true =>
          let time_elapsed := pyInt (now - t0)
          let time_left := max 0 ((TIME_LIMIT : ℤ) - time_elapsed)
          if time_left ≤ 0 ∧ s1.hasAnswered = false then
            (save_score player_id gs.currentWordIndex false none now db1,
             { s1 with hasAnswered := true, lastAnswerCorrect := some false })
          else (db1, s1)
      | _, _ => (db1, s1)

/-- The `Next word` admin button: `new_idx = min(idx + 1, TOTAL_WORDS)` then
`set_game_state(current_word_index=new_idx, question_start_time=None,
is_active=0)`. -/
def advanceWord (db : DB) : DB :=
  set_game_state (some (min (db.gameState.currentWordIndex + 1) TOTAL_WORDS))
    none (some false) db

/-- The `Start round` admin button:
`set_game_state(question_start_time=utcnow(), is_active=1)`. -/
def startRound (now : ℚ) (db : DB) : DB :=
  set_game_state none (some now) (some true) db

/-- The `Stop round` admin button: `set_game_state(is_active=0)`. -/
def stopRound (db : DB) : DB :=
  set_game_state none none (some false) db

/-- The elapsed/remaining computation repeated in the render loops:
`time_elapsed = int((now - start_time).total_seconds())`,
`time_left = max(0, TIME_LIMIT - time_elapsed)`. -/
def elapsedAndRemaining (start_time now : ℚ) : ℤ × ℤ :=
  let time_elapsed := pyInt (now - start_time)
  (time_elapsed, max 0 ((TIME_LIMIT : ℤ) - time_elapsed))

/-- No two score rows share the `(player_id, word_index)` key — the
`UNIQUE(player_id, word_index)` table constraint. -/
def keysNodup (scores : List ScoreRecord) : Prop :=
  scores.Pairwise (fun r r₂ => ¬(r.playerId = r₂.playerId ∧ r.wordIndex = r₂.wordIndex))

instance : DecidablePred keysNodup := fun scores => by
  unfold keysNodup
  infer_instance

/-- One queued `save_score` call: `(player_id, word_index, correct, time_taken, now)`. -/
structure SaveCall where
  playerId : Nat
  wordIndex : Nat
  correct : Bool
  timeTaken : Option ℚ
  now : ℚ
deriving DecidableEq

/-- Apply a sequence of `save_score` calls in order. -/
def applyCalls (calls : List SaveCall) (db : DB) : DB :=
  calls.foldl (fun d c => save_score c.playerId c.wordIndex c.correct c.timeTaken c.now d) db

/-! ### Helper lemmas -/

theorem save_score_filter_key (db : DB) (player_id word_index : Nat) (correct : Bool)
    (time_taken : Option ℚ) (now : ℚ) :
    (save_score player_id word_index correct time_taken now db).scores.filter
        (fun r => r.playerId = player_id ∧ r.wordIndex = word_index) =
      [{ playerId := player_id, wordIndex := word_index, correct := correct,
         timeTaken := time_taken, answeredAt := now }] := by
  simp only [save_score, List.filter_append, List.filter_filter]
  rw [List.filter_eq_nil_iff.mpr (by intro a _; simp), List.nil_append]
  simp

theorem save_score_keysNodup (db : DB) (player_id word_index : Nat) (correct : Bool)
    (time_taken : Option ℚ) (now : ℚ) (h : keysNodup db.scores) :
    keysNodup (save_score player_id word_index correct time_taken now db).scores := by
  unfold keysNodup save_score at *
  simp only [List.pairwise_append]
  refine ⟨h.filter _, List.pairwise_singleton _ _, ?_⟩
  intro a ha b hb
  simp only [List.mem_filter, decide_not, Bool.not_eq_eq_eq_not, Bool.not_true,
    decide_eq_false_iff_not] at ha
  simp only [List.mem_singleton] at hb
  subst hb
  exact ha.2

theorem applyCalls_keysNodup (calls : List SaveCall) (db : DB) (h : keysNodup db.scores) :
    keysNodup (applyCalls calls db).scores := by
  induction calls generalizing db with
  | nil => exact h
  | cons c rest ih =>
      exact ih _ (save_score_keysNodup _ _ _ _ _ _ h)

theorem keysNodup_countP_le_one (l : List ScoreRecord) (p w : Nat) (h : keysNodup l) :
    l.countP (fun r => r.playerId = p ∧ r.wordIndex = w) ≤ 1 := by
  induction l with
  | nil => simp
  | cons a t ih =>
      rw [keysNodup, List.pairwise_cons] at h
      rw [List.countP_cons]
      by_cases ha : a.playerId = p ∧ a.wordIndex = w
      · have ht : t.countP (fun r => r.playerId = p ∧ r.wordIndex = w) = 0 := by
          rw [List.countP_eq_zero]
          intro r hr
          have := h.1 r hr
          simp only [decide_eq_true_eq]
          intro hk
          exact this ⟨ha.1.trans hk.1.symm, ha.2.trans hk.2.symm⟩
        rw [ht]
        simp [ha]
      · simpa [ha] using ih h.2

theorem update_last_seen_scores (player_id : Nat) (now : ℚ) (db : DB) :
    (update_last_seen player_id now db).scores = db.scores := rfl

theorem update_last_seen_gameState (player_id : Nat) (now : ℚ) (db : DB) :
    (update_last_seen player_id now db).gameState = db.gameState := rfl

theorem save_score_gameState (db : DB) (player_id word_index : Nat) (correct : Bool)
    (time_taken : Option ℚ) (now : ℚ) :
    (save_score player_id word_index correct time_taken now db).gameState = db.gameState := rfl

theorem save_score_players (db : DB) (player_id word_index : Nat) (correct : Bool)
    (time_taken : Option ℚ) (now : ℚ) :
    (save_score player_id word_index correct time_taken now db).players = db.players := rfl

theorem get_or_create_player_gameState (name : String) (now : ℚ) (db : DB) :
    (get_or_create_player name now db).2.gameState = db.gameState := by
  unfold get_or_create_player
  cases db.players.find? (fun p => p.name = name) <;> rfl

theorem rat_floor_eq_intFloor (q : ℚ) : q.floor = ⌊q⌋ :=
  (Rat.floor_def' q).trans Rat.floor_def.symm

theorem update_last_seen_player_exists (q player_id : Nat) (now : ℚ) (db : DB) :
    player_exists q (update_last_seen player_id now db) = player_exists q db := by
  unfold player_exists update_last_seen
  induction db.players with
  | nil => rfl
  | cons p t ih =>
      simp only [List.map_cons, List.any_cons, ih]
      by_cases hp : p.id = player_id <;> simp [hp]

/-! ### Claims -/

/-- C9: after `reset_all`, from any prior state, the score ledger holds no
records, the player registry holds no players, and the round state is
exactly `(current_word_index = 0, is_active = false, round_start_time = null)`. -/
theorem c9_reset_all_clears_everything (db : DB) :
    (reset_all db).scores = [] ∧ (reset_all db).players = [] ∧
    (reset_all db).gameState =
      { currentWordIndex := 0, questionStartTime := none, isActive := false } :=
  ⟨rfl, rfl, rfl⟩

/-- Concrete database used to refute the round-start-time clause of C3:
word index 4, a round started at `t = 5` still recorded. -/
def dbC3 : DB :=
  { players := [], nextPlayerId := 1, scores := [],
    gameState := { currentWordIndex := 4, questionStartTime := some 5, isActive := true } }

/-- C3 counterexample: `advanceWord` on a state with `question_start_time = 5`
leaves it at `5` — it does not become NULL, contrary to the claim that
`advanceWord` "sets round_start_time to null (clears it)". The
`question_start_time=None` keyword argument makes `set_game_state` skip the
field rather than store NULL. -/
theorem c3_advance_word_counterexample :
    (advanceWord dbC3).gameState.questionStartTime = some 5 ∧
    ¬((advanceWord dbC3).gameState.questionStartTime = none) := by
  constructor
  · rfl
  · intro h
    simp [advanceWord, set_game_state, dbC3] at h

/-- C3 (amended): `advanceWord` sets `current_word_index` to
`min(idx + 1, total word count)` and `is_active` to false, and leaves
`round_start_time` unchanged (the `None` argument means "do not update"
inside `set_game_state`, so the field keeps its previous value). -/
theorem c3_advance_word_amended (db : DB) :
    (advanceWord db).gameState.currentWordIndex =
      min (db.gameState.currentWordIndex + 1) TOTAL_WORDS ∧
    (advanceWord db).gameState.isActive = false ∧
    (advanceWord db).gameState.questionStartTime = db.gameState.questionStartTime :=
  ⟨rfl, rfl, rfl⟩

/-- C2 (code evaluated at the failing input): a submission of the exact
canonical answer made 31 seconds after the round start — after the
30-second limit — is judged CORRECT by the code, with `time_taken`
clamped to 30. `judge` computes `time_taken = min(elapsed, TIME_LIMIT)`
first, so its check `time_taken <= TIME_LIMIT` is vacuously true and the
elapsed-time condition claimed by the spec is never actually enforced. -/
theorem c2_late_submission_judged_correct :
    (TIME_LIMIT : ℚ) < (31 : ℚ) - 0 ∧
    judge "TRUST" "TRUST" 0 31 = (true, 30) := by
  have hmin : pyMin ((31 : ℚ) - 0) ((TIME_LIMIT : ℚ)) = 30 := by
    norm_num [pyMin, TIME_LIMIT]
  have hstr : pyUpper (pyStrip "TRUST") = pyUpper "TRUST" := by decide
  refine ⟨by norm_num [TIME_LIMIT], ?_⟩
  simp only [judge, hmin, hstr]
  norm_num [TIME_LIMIT]

/-- C7: for a round started at `t0` read at `now ≥ t0`, `elapsed_seconds` is
the integer floor of the fractional elapsed time `now - t0`,
`remaining_seconds = max(0, 30 - elapsed_seconds)` and is never negative;
at a fractional elapsed time of 29.9 s the remaining time is 1. -/
theorem c7_elapsed_and_remaining (t0 now : ℚ) (h : t0 ≤ now) :
    ((elapsedAndRemaining t0 now).1 : ℚ) ≤ now - t0 ∧
    now - t0 < ((elapsedAndRemaining t0 now).1 : ℚ) + 1 ∧
    (elapsedAndRemaining t0 now).2 =
      max 0 ((TIME_LIMIT : ℤ) - (elapsedAndRemaining t0 now).1) ∧
    0 ≤ (elapsedAndRemaining t0 now).2 ∧
    elapsedAndRemaining 0 (299/10) = (29, 1) := by
  have h0 : (0 : ℚ) ≤ now - t0 := by linarith
  have hfst : (elapsedAndRemaining t0 now).1 = (now - t0).floor := by
    show pyInt (now - t0) = (now - t0).floor
    unfold pyInt
    rw [if_neg (not_lt.mpr h0)]
  have hlast : elapsedAndRemaining 0 (299/10) = (29, 1) := by
    have hq : (299 / 10 : ℚ) - 0 = 299 / 10 := by norm_num
    have hfl : ((299 / 10 : ℚ)).floor = 29 := by
      rw [rat_floor_eq_intFloor, Int.floor_eq_iff]
      constructor <;> norm_num
    show (pyInt ((299/10 : ℚ) - 0),
          max 0 ((TIME_LIMIT : ℤ) - pyInt ((299/10 : ℚ) - 0))) = (29, 1)
    unfold pyInt
    rw [hq, if_neg (by norm_num : ¬(299/10 : ℚ) < 0), hfl]
    norm_num [TIME_LIMIT]
  refine ⟨?_, ?_, rfl, le_max_left _ _, hlast⟩
  · rw [hfst]
    exact Rat.le_floor.mp le_rfl
  · rw [hfst]
    by_contra hc
    push_neg at hc
    have h2 : (((now - t0).floor + 1 : ℤ) : ℚ) ≤ now - t0 := by push_cast; linarith
    have := Rat.le_floor.mpr h2
    omega

/-- C7 witness at `t0 = 0`, `now = 29.9`. -/
theorem c7_elapsed_and_remaining_witness :
    (0 : ℚ) ≤ 299/10 ∧
    (((elapsedAndRemaining 0 (299/10)).1 : ℚ) ≤ 299/10 - 0 ∧
     299/10 - 0 < ((elapsedAndRemaining 0 (299/10)).1 : ℚ) + 1 ∧
     (elapsedAndRemaining 0 (299/10)).2 =
       max 0 ((TIME_LIMIT : ℤ) - (elapsedAndRemaining 0 (299/10)).1) ∧
     0 ≤ (elapsedAndRemaining 0 (299/10)).2 ∧
     elapsedAndRemaining 0 (299/10) = (29, 1)) :=
  ⟨by norm_num, c7_elapsed_and_remaining 0 (299/10) (by norm_num)⟩

/-- C1: the score ledger is an idempotent upsert keyed by
`(player_id, word_index)`: starting from any state satisfying the UNIQUE
constraint, any sequence of `save_score` calls preserves it (at most one
record per key, shown also as a count bound), and a `save_score` call
leaves exactly its own record as the sole record for its key (a later
call with the same key overwrites the prior record and never creates a
duplicate). -/
theorem c1_save_score_upsert (db : DB) (calls : List SaveCall)
    (player_id word_index p w : Nat) (correct : Bool) (time_taken : Option ℚ) (now : ℚ)
    (h : keysNodup db.scores) :
    keysNodup (applyCalls calls db).scores ∧
    (applyCalls calls db).scores.countP
        (fun r => r.playerId = p ∧ r.wordIndex = w) ≤ 1 ∧
    (save_score player_id word_index correct time_taken now db).scores.filter
        (fun r => r.playerId = player_id ∧ r.wordIndex = word_index) =
      [{ playerId := player_id, wordIndex := word_index, correct := correct,
         timeTaken := time_taken, answeredAt := now }] := by
  have h1 := applyCalls_keysNodup calls db h
  exact ⟨h1, keysNodup_countP_le_one _ p w h1,
         save_score_filter_key db player_id word_index correct time_taken now⟩

/-- C1 witness: one call on the fresh database. -/
theorem c1_save_score_upsert_witness :
    keysNodup init_db.scores ∧
    (keysNodup (applyCalls [⟨1, 0, true, some 5, 5⟩] init_db).scores ∧
     (applyCalls [⟨1, 0, true, some 5, 5⟩] init_db).scores.countP
         (fun r => r.playerId = 1 ∧ r.wordIndex = 0) ≤ 1 ∧
     (save_score 1 0 true (some 5) 5 init_db).scores.filter
         (fun r => r.playerId = 1 ∧ r.wordIndex = 0) =
       [{ playerId := 1, wordIndex := 0, correct := true,
          timeTaken := some 5, answeredAt := 5 }]) :=
  ⟨List.Pairwise.nil,
   c1_save_score_upsert init_db [⟨1, 0, true, some 5, 5⟩] 1 0 1 0 true (some 5) 5
     List.Pairwise.nil⟩

/-- C6: `get_overall_leaderboard` is a permutation of one aggregated row per
registered player (so players with no score records appear, with
`correct_count = 0`), it is sorted by `correct_count` descending with ties
broken by total correct time ascending, and each row carries exactly the
count of that player's correct records and the sum of `time_taken` over
that player's correct records. -/
theorem c6_overall_leaderboard (db : DB) :
    (get_overall_leaderboard db).Perm (db.players.map (playerRow db.scores)) ∧
    List.Sorted lbRel (get_overall_leaderboard db) ∧
    (get_overall_leaderboard db).length = db.players.length ∧
    (∀ row ∈ get_overall_leaderboard db, ∃ p, p ∈ db.players ∧
        row = (p.name,
               (db.scores.filter (fun r => r.playerId = p.id ∧ r.correct = true)).length,
               ((db.scores.filter (fun r => r.playerId = p.id ∧ r.correct = true)).map
                  (fun r => r.timeTaken.getD 0)).sum)) ∧
    (∀ p ∈ db.players,
        (p.name,
         (db.scores.filter (fun r => r.playerId = p.id ∧ r.correct = true)).length,
         ((db.scores.filter (fun r => r.playerId = p.id ∧ r.correct = true)).map
            (fun r => r.timeTaken.getD 0)).sum) ∈ get_overall_leaderboard db) := by
  have hperm := List.perm_insertionSort lbRel (db.players.map (playerRow db.scores))
  refine ⟨hperm, List.sorted_insertionSort lbRel _,
          hperm.length_eq.trans (List.length_map _ _), ?_, ?_⟩
  · intro row hrow
    have hm : row ∈ db.players.map (playerRow db.scores) := hperm.mem_iff.mp hrow
    obtain ⟨p, hp, hrw⟩ := List.mem_map.mp hm
    exact ⟨p, hp, hrw.symm⟩
  · intro p hp
    exact hperm.mem_iff.mpr (List.mem_map_of_mem _ hp)

theorem find?_append_of_none {α : Type} (p : α → Bool) (l₁ l₂ : List α)
    (h : l₁.find? p = none) : (l₁ ++ l₂).find? p = l₂.find? p := by
  induction l₁ with
  | nil => rfl
  | cons a t ih =>
      by_cases hpa : p a = true
      · rw [List.find?_cons_of_pos _ hpa] at h
        exact absurd h (by simp)
      · rw [List.find?_cons_of_neg _ hpa] at h
        rw [List.cons_append, List.find?_cons_of_neg _ hpa]
        exact ih h

theorem get_or_create_player_idem (db : DB) (name : String) (now now2 : ℚ) :
    (get_or_create_player name now2 (get_or_create_player name now db).2).1 =
      (get_or_create_player name now db).1 := by
  unfold get_or_create_player
  cases hf : db.players.find? (fun q => q.name = name) with
  | some p => simp [hf]
  | none =>
      simp only [hf]
      rw [find?_append_of_none _ _ _ hf]
      simp

/-- C8: `get_or_create_player` returns the id of the existing player with
the exact (case-sensitive) name and changes nothing (in particular that
player's `last_seen` is untouched); when no player has that name it
appends a new player with `last_seen = now` and returns the fresh id; and
two successive calls with the same name return the same id. -/
theorem c8_get_or_create_player (db : DB) (name : String) (now now2 : ℚ)
    (hnodup : (db.players.map Player.name).Nodup) :
    (∀ p ∈ db.players, p.name = name → get_or_create_player name now db = (p.id, db)) ∧
    ((∀ p ∈ db.players, ¬(p.name = name)) →
       get_or_create_player name now db =
         (db.nextPlayerId,
          { db with
              players := db.players ++ [{ id := db.nextPlayerId, name := name,
                                          createdAt := now, lastSeen := some now }],
              nextPlayerId := db.nextPlayerId + 1 })) ∧
    (get_or_create_player name now2 (get_or_create_player name now db).2).1 =
      (get_or_create_player name now db).1 := by
  refine ⟨?_, ?_, get_or_create_player_idem db name now now2⟩
  · intro p hp hname
    have hfind : db.players.find? (fun q => q.name = name) = some p := by
      cases hf : db.players.find? (fun q => q.name = name) with
      | none =>
          rw [List.find?_eq_none] at hf
          exact absurd hname (by simpa using hf p hp)
      | some q =>
          have hqmem := List.mem_of_find?_eq_some hf
          have hqname : q.name = name := by simpa using List.find?_some hf
          have hqp : q = p :=
            List.inj_on_of_nodup_map hnodup hqmem hp (hqname.trans hname.symm)
          rw [hqp]
    unfold get_or_create_player
    rw [hfind]
  · intro hnone
    have hfind : db.players.find? (fun q => q.name = name) = none := by
      rw [List.find?_eq_none]
      intro q hq
      simpa using hnone q hq
    unfold get_or_create_player
    rw [hfind]

/-- Concrete database for the C8 witness: one registered player "Ada". -/
def dbC8 : DB :=
  { players := [{ id := 1, name := "Ada", createdAt := 0, lastSeen := some 0 }],
    nextPlayerId := 2, scores := [],
    gameState := { currentWordIndex := 0, questionStartTime := none, isActive := false } }

/-- C8 witness on `dbC8`. -/
theorem c8_get_or_create_player_witness :
    (dbC8.players.map Player.name).Nodup ∧
    ((∀ p ∈ dbC8.players, p.name = "Ada" →
        get_or_create_player "Ada" 1 dbC8 = (p.id, dbC8)) ∧
     ((∀ p ∈ dbC8.players, ¬(p.name = "Ada")) →
        get_or_create_player "Ada" 1 dbC8 =
          (dbC8.nextPlayerId,
           { dbC8 with
               players := dbC8.players ++ [{ id := dbC8.nextPlayerId, name := "Ada",
                                             createdAt := 1, lastSeen := some 1 }],
               nextPlayerId := dbC8.nextPlayerId + 1 })) ∧
     (get_or_create_player "Ada" 2 (get_or_create_player "Ada" 1 dbC8).2).1 =
       (get_or_create_player "Ada" 1 dbC8).1) :=
  ⟨by simp [dbC8], c8_get_or_create_player dbC8 "Ada" 1 2 (by simp [dbC8])⟩

/-- C4: when the countdown of the current word has reached zero
(`time_left <= 0`) and the logged-in player has not answered, one poll of
the player loop writes exactly one implicit incorrect record with NULL
`time_taken` for that `(player, word)` pair, marks the session answered,
and any later poll leaves the score table unchanged — no duplicate record
is ever written for that pair. -/
theorem c4_timeout_auto_record (db : DB) (s : Session) (player_id idx : Nat) (t0 now : ℚ)
    (hex : player_exists player_id db = true)
    (hgs : db.gameState = { currentWordIndex := idx, questionStartTime := some t0,
                            isActive := true })
    (hidx : idx < TOTAL_WORDS)
    (htime : (TIME_LIMIT : ℤ) ≤ pyInt (now - t0))
    (hseen : s.seenWordIndex = (idx : Int))
    (hans : s.hasAnswered = false) :
    (pollStep player_id now db s).1.scores.filter
        (fun r => r.playerId = player_id ∧ r.wordIndex = idx) =
      [{ playerId := player_id, wordIndex := idx, correct := false,
         timeTaken := none, answeredAt := now }] ∧
    (pollStep player_id now db s).2.hasAnswered = true ∧
    ∀ now2 : ℚ,
      (pollStep player_id now2 (pollStep player_id now db s).1
          (pollStep player_id now db s).2).1.scores =
        (pollStep player_id now db s).1.scores := by
  have hmax : max 0 ((TIME_LIMIT : ℤ) - pyInt (now - t0)) = 0 := by omega
  have hnle : ¬(TOTAL_WORDS ≤ idx) := not_le.mpr hidx
  have key : pollStep player_id now db s =
      (save_score player_id idx false none now (update_last_seen player_id now db),
       { s with hasAnswered := true, lastAnswerCorrect := some false }) := by
    unfold pollStep
    simp only [hex, update_last_seen_gameState, hgs, hseen, hans, hmax]
    simp [hnle]
    simp [hans, hseen]
  refine ⟨?_, ?_, ?_⟩
  · rw [key]
    exact save_score_filter_key _ _ _ _ _ _
  · rw [key]
  · intro now2
    rw [key]
    have hex2 : player_exists player_id
        (save_score player_id idx false none now (update_last_seen player_id now db)) =
          true := by
      show player_exists player_id (update_last_seen player_id now db) = true
      rw [update_last_seen_player_exists]
      exact hex
    have hgs2 : (save_score player_id idx false none now
        (update_last_seen player_id now db)).gameState =
          { currentWordIndex := idx, questionStartTime := some t0, isActive := true } := by
      rw [save_score_gameState, update_last_seen_gameState, hgs]
    unfold pollStep
    simp only [hex2, update_last_seen_gameState, hgs2, hseen]
    simp [hnle, update_last_seen_scores]

/-- Concrete database for the C4 witness: player "Bo" (id 1) logged in, word 0
running since `t = 0`, no submission. -/
def dbC4 : DB :=
  { players := [{ id := 1, name := "Bo", createdAt := 0, lastSeen := some 0 }],
    nextPlayerId := 2, scores := [],
    gameState := { currentWordIndex := 0, questionStartTime := some 0, isActive := true } }

/-- Session for the C4 witness: word 0 seen, not answered. -/
def sC4 : Session :=
  { seenWordIndex := 0, hasAnswered := false, lastAnswerCorrect := none,
    lastAnswerTime := none }

/-- C4 witness: "Bo" polls at `t = 40 s` (timeout) and then again at any later
time. -/
theorem c4_timeout_auto_record_witness :
    (player_exists 1 dbC4 = true ∧
     dbC4.gameState = { currentWordIndex := 0, questionStartTime := some 0,
                        isActive := true } ∧
     0 < TOTAL_WORDS ∧
     (TIME_LIMIT : ℤ) ≤ pyInt ((40 : ℚ) - 0) ∧
     sC4.seenWordIndex = ((0 : Nat) : Int) ∧
     sC4.hasAnswered = false) ∧
    ((pollStep 1 40 dbC4 sC4).1.scores.filter
        (fun r => r.playerId = 1 ∧ r.wordIndex = 0) =
      [{ playerId := 1, wordIndex := 0, correct := false,
         timeTaken := none, answeredAt := 40 }] ∧
     (pollStep 1 40 dbC4 sC4).2.hasAnswered = true ∧
     ∀ now2 : ℚ,
       (pollStep 1 now2 (pollStep 1 40 dbC4 sC4).1 (pollStep 1 40 dbC4 sC4).2).1.scores =
         (pollStep 1 40 dbC4 sC4).1.scores) := by
  have h40 : (40 : ℚ) - 0 = 40 := by norm_num
  have h4 : (TIME_LIMIT : ℤ) ≤ pyInt ((40 : ℚ) - 0) := by
    rw [h40]
    decide
  exact ⟨⟨rfl, rfl, by decide, h4, rfl, rfl⟩,
         c4_timeout_auto_record dbC4 sC4 1 0 0 40 rfl rfl (by decide) h4 rfl rfl⟩

/-- Concrete database for the C5 counterexample: player "Ada" (id 1) logged in,
word 0 running since `t = 0`, empty score table. -/
def dbC5 : DB :=
  { players := [{ id := 1, name := "Ada", createdAt := 0, lastSeen := some 0 }],
    nextPlayerId := 2, scores := [],
    gameState := { currentWordIndex := 0, questionStartTime := some 0, isActive := true } }

/-- Word 0 of the static list, used by the C5 theorems. -/
def wordC5 : WordEntry := WORDS.getD 0 { index := 0, scramble := "", answer := "", clue := "" }

/-- C5 counterexample: submitting the EMPTY answer string is not rejected as a
validation error — the submit handler judges it like any other text, so it
mutates state by writing an incorrect score record for `(player 1, word 0)`,
contrary to the claim that "no score record is written for an empty answer
submission". -/
theorem c5_empty_answer_writes_record :
    dbC5.scores = [] ∧
    (submitAnswer 1 wordC5 "" 0 5 dbC5 initSession).1.scores =
      [{ playerId := 1, wordIndex := 0, correct := false,
         timeTaken := none, answeredAt := 5 }] := by
  exact ⟨rfl, rfl⟩

/-- C5 (amended): an empty (all-whitespace) display name on join is rejected
and mutates no state; answer text, however, is NOT validated — submitting an
empty answer is simply judged incorrect and writes an incorrect score record
with NULL `time_taken` for that `(player, word)` (players and round state are
untouched). -/
theorem c5_validation_amended (db : DB) (s : Session) (name_input : String)
    (player_id : Nat) (w : WordEntry) (t0 now : ℚ)
    (hname : pyStrip name_input = "")
    (hw : ¬(pyUpper w.answer = "")) :
    joinGame name_input now db = (none, db) ∧
    (submitAnswer player_id w "" t0 now db s).1.scores.filter
        (fun r => r.playerId = player_id ∧ r.wordIndex = w.index) =
      [{ playerId := player_id, wordIndex := w.index, correct := false,
         timeTaken := none, answeredAt := now }] ∧
    (submitAnswer player_id w "" t0 now db s).1.players = db.players ∧
    (submitAnswer player_id w "" t0 now db s).1.gameState = db.gameState := by
  have hj : (judge "" w.answer t0 now).1 = false := by
    show (decide (pyUpper (pyStrip "") = pyUpper w.answer ∧
           pyMin (now - t0) ((TIME_LIMIT : ℚ)) ≤ (TIME_LIMIT : ℚ))) = false
    rw [decide_eq_false_iff_not]
    intro hc
    exact hw hc.1.symm
  have hsub : (submitAnswer player_id w "" t0 now db s).1 =
      save_score player_id w.index false none now db := by
    show save_score player_id w.index (judge "" w.answer t0 now).1
          (if (judge "" w.answer t0 now).1 then some (judge "" w.answer t0 now).2 else none)
          now db = _
    rw [hj]
    simp
  refine ⟨?_, ?_, ?_, ?_⟩
  · simp [joinGame, hname]
  · rw [hsub]
    exact save_score_filter_key _ _ _ _ _ _
  · rw [hsub]
    rfl
  · rw [hsub]
    rfl

/-- C5 witness: name input `" "` and an empty answer for word 0 on `dbC5`. -/
theorem c5_validation_amended_witness :
    (pyStrip " " = "" ∧ ¬(pyUpper wordC5.answer = "")) ∧
    (joinGame " " 5 dbC5 = (none, dbC5) ∧
     (submitAnswer 1 wordC5 "" 0 5 dbC5 initSession).1.scores.filter
         (fun r => r.playerId = 1 ∧ r.wordIndex = wordC5.index) =
       [{ playerId := 1, wordIndex := wordC5.index, correct := false,
          timeTaken := none, answeredAt := 5 }] ∧
     (submitAnswer 1 wordC5 "" 0 5 dbC5 initSession).1.players = dbC5.players ∧
     (submitAnswer 1 wordC5 "" 0 5 dbC5 initSession).1.gameState = dbC5.gameState) :=
  ⟨⟨by decide, by decide⟩,
   c5_validation_amended dbC5 initSession " " 1 wordC5 0 5 (by decide) (by decide)⟩

theorem joinGame_gameState (name_input : String) (now : ℚ) (db : DB) :
    (joinGame name_input now db).2.gameState = db.gameState := by
  simp only [joinGame]
  split
  · rfl
  · exact get_or_create_player_gameState _ _ _

theorem pollStep_gameState (player_id : Nat) (now : ℚ) (db : DB) (s : Session) :
    (pollStep player_id now db s).1.gameState = db.gameState := by
  unfold pollStep
  split
  · rfl
  · dsimp only
    repeat first | rfl | split

/-- C10: `set_game_state` leaves every field whose argument is `None` at its
previous value, so it can never store NULL into `question_start_time` (nor
into any other round-state field); every other state-mutating operation of
the app leaves the `game_state` row untouched, and `reset_all` is the
operation that makes `question_start_time` NULL again. -/
theorem c10_set_game_state_no_null (cwi : Option Nat) (qst : Option ℚ) (ia : Option Bool)
    (db db2 : DB) (s : Session) (player_id word_index : Nat) (c : Bool)
    (tt : Option ℚ) (name answer : String) (w : WordEntry) (t0 now : ℚ)
    (h : ¬(db.gameState.questionStartTime = none)) :
    ¬((set_game_state cwi qst ia db).gameState.questionStartTime = none) ∧
    set_game_state none none none db2 = db2 ∧
    (set_game_state cwi none ia db2).gameState.questionStartTime =
      db2.gameState.questionStartTime ∧
    (set_game_state none qst ia db2).gameState.currentWordIndex =
      db2.gameState.currentWordIndex ∧
    (set_game_state cwi qst none db2).gameState.isActive = db2.gameState.isActive ∧
    (reset_all db2).gameState.questionStartTime = none ∧
    (save_score player_id word_index c tt now db2).gameState = db2.gameState ∧
    (update_last_seen player_id now db2).gameState = db2.gameState ∧
    (get_or_create_player name now db2).2.gameState = db2.gameState ∧
    (joinGame name now db2).2.gameState = db2.gameState ∧
    (submitAnswer player_id w answer t0 now db2 s).1.gameState = db2.gameState ∧
    (pollStep player_id now db2 s).1.gameState = db2.gameState := by
  refine ⟨?_, rfl, rfl, rfl, rfl, rfl, rfl, rfl,
          get_or_create_player_gameState _ _ _, joinGame_gameState _ _ _, rfl,
          pollStep_gameState _ _ _ _⟩
  cases qst with
  | some t => simp [set_game_state]
  | none => simpa [set_game_state] using h

/-- Concrete database for the C10 witness: a round of word 2 started at
`t = 3`. -/
def dbC10 : DB :=
  { players := [], nextPlayerId := 1, scores := [],
    gameState := { currentWordIndex := 2, questionStartTime := some 3, isActive := true } }

/-- C10 witness on `dbC10`. -/
theorem c10_set_game_state_no_null_witness :
    ¬(dbC10.gameState.questionStartTime = none) ∧
    (¬((set_game_state (some 7) none (some false) dbC10).gameState.questionStartTime =
         none) ∧
     set_game_state none none none dbC10 = dbC10 ∧
     (set_game_state (some 7) none (some false) dbC10).gameState.questionStartTime =
       dbC10.gameState.questionStartTime ∧
     (set_game_state none none (some false) dbC10).gameState.currentWordIndex =
       dbC10.gameState.currentWordIndex ∧
     (set_game_state (some 7) none none dbC10).gameState.isActive =
       dbC10.gameState.isActive ∧
     (reset_all dbC10).gameState.questionStartTime = none ∧
     (save_score 1 0 true none 1 dbC10).gameState = dbC10.gameState ∧
     (update_last_seen 1 1 dbC10).gameState = dbC10.gameState ∧
     (get_or_create_player "Ada" 1 dbC10).2.gameState = dbC10.gameState ∧
     (joinGame "Ada" 1 dbC10).2.gameState = dbC10.gameState ∧
     (submitAnswer 1 ⟨0, "AB", "BA", "c"⟩ "X" 0 1 dbC10 initSession).1.gameState =
       dbC10.gameState ∧
     (pollStep 1 1 dbC10 initSession).1.gameState = dbC10.gameState) :=
  ⟨by decide,
   c10_set_game_state_no_null (some 7) none (some false) dbC10 dbC10 initSession 1 0
     true none "Ada" "X" ⟨0, "AB", "BA", "c"⟩ 0 1 (by decide)⟩
